import Mathlib

/-!
Shallow embedding of the pdfchat-demo RAG application, covering the
query/citation pipeline (`src/app/core/retriever.py`), the vector-store
lifecycle (`src/app/database/pgvector_store.py`) and the embedding-dimension
configuration (`src/app/utils/config.py`).

Modelling conventions:
* Python exceptions become `Except String` results; catch-all handlers that
  swallow exceptions become total functions.
* Calls into external systems (the database, psycopg2, the llama_index
  framework) are represented by boolean outcome flags or by function-valued
  parameters standing for the external behaviour.
* Side effects the claims talk about (SQL actions performed, log lines
  emitted) are returned explicitly as lists.
* Similarity scores (Python floats) are modelled as rationals `ℚ`.
-/

namespace PdfChat

/-- Metadata attached to a chunk / node (free-form key-value mapping). -/
abbrev Metadata := List (String × String)

/-- A `MetadataFilters` value (opaque to the retriever code: it is only
stored in and restored from the retriever's `filters` slot). -/
abbrev MFilter := List (String × String)

/-- A retrieved chunk together with its similarity score, as produced by the
underlying retrieval step (`NodeWithScore` in the source). -/
structure ScoredNode where
  content : String
  score : ℚ
  metadata : Metadata
  deriving Repr, DecidableEq

/-- One citation record of the query result
(`{"content": ..., "score": ..., "metadata": ...}` in the source). -/
structure Citation where
  content : String
  score : ℚ
  metadata : Metadata
  deriving Repr, DecidableEq

/-- The dictionary returned by `RAGQueryEngine.query`
(`{"response": ..., "citations": ...}` in the source). -/
structure QueryResult where
  response : String
  citations : List Citation
  deriving Repr, DecidableEq

/-- The mutable state of the query engine's retriever that
`RAGQueryEngine.query` reads and writes: the default metadata-filter slot
`query_engine.retriever.filters`. -/
structure EngineState where
  filters : Option MFilter
  deriving Repr, DecidableEq

namespace RAGQueryEngine

/-- The active filter at the moment `query_engine.query` runs inside
`RAGQueryEngine.query`: the per-call filter when it was substituted
(source lines 107-110), otherwise the engine's default slot. -/
def activeFilters (hasRetriever retrieverHasFilters : Bool)
    (st : EngineState) (filters : Option MFilter) : Option MFilter :=
  if filters.isSome && hasRetriever && retrieverHasFilters then filters
  else st.filters

/-- `RAGQueryEngine.query` (source lines 92-138).

* `hasRetriever` models `hasattr(self.query_engine, "retriever")` and
  `retrieverHasFilters` models `hasattr(self.query_engine.retriever,
  "filters")`.
* `pipeline` stands for `self.query_engine.query`: given the query string
  and the retriever's active filter slot it either raises (`.error`) or
  returns the stringified response text together with `response.source_nodes`.
* The returned pair is (state of the filter slot after the call, outcome).

Faithful to the source: `original_filters` starts as `None` and is saved only
when a per-call filter is substituted (lines 107-110); after a successful
pipeline call the slot is restored only when `filters and original_filters
is not None and hasattr(self.query_engine, "retriever")` (lines 116-117);
when the pipeline raises, the exception propagates with no restoration
(lines 136-138). -/
def query (hasRetriever retrieverHasFilters : Bool) (st : EngineState)
    (query_str : String) (filters : Option MFilter)
    (pipeline : String → Option MFilter → Except String (String × List ScoredNode)) :
    EngineState × Except String QueryResult :=
  let subst := filters.isSome && hasRetriever && retrieverHasFilters
  let original_filters : Option MFilter := if subst then st.filters else none
  let st1 : EngineState := ⟨activeFilters hasRetriever retrieverHasFilters st filters⟩
  match pipeline query_str st1.filters with
  | .error e => (st1, .error e)
  | .ok (resp, source_nodes) =>
    let st2 : EngineState :=
      if filters.isSome && original_filters.isSome && hasRetriever then
        ⟨original_filters⟩
      else st1
    (st2, .ok { response := resp,
                citations := source_nodes.map
                  (fun n => { content := n.content, score := n.score,
                              metadata := n.metadata }) })

/-- Modelled from the spec: the query pipeline the engine constructor builds
via `vector_index.as_query_engine(similarity_top_k=..., node_postprocessors=
[SimilarityPostprocessor(similarity_cutoff=...)])` (source lines 62-76) lives
in the external llama_index framework, whose code is not part of this
repository.  Per the spec: "retrieve up to top-K chunks matching `text` under
the active search mode, discard any chunk whose similarity score is below the
configured cutoff, then generate an answer conditioned on the surviving
chunks."  `retrieve` stands for the store's ranked retrieval and `synthesize`
for LLM answer generation over the surviving chunks. -/
def mkPipeline (similarity_top_k : Nat) (similarity_cutoff : ℚ)
    (retrieve : String → Option MFilter → List ScoredNode)
    (synthesize : List ScoredNode → String) :
    String → Option MFilter → Except String (String × List ScoredNode) :=
  fun query_str f =>
    let retrieved := (retrieve query_str f).take similarity_top_k
    let surviving := retrieved.filter (fun n => decide (similarity_cutoff ≤ n.score))
    .ok (synthesize surviving, surviving)

end RAGQueryEngine

/-! ## Vector store manager (`src/app/database/pgvector_store.py`) -/

/-- State of the manager's auxiliary psycopg2 connection `self.conn`:
never created / `None` (`absent`), open, or closed. -/
inductive ConnState
  | absent
  | opened
  | closed
  deriving Repr, DecidableEq

/-- The state of the backing PostgreSQL table targeted by the manager:
whether the table exists and, when it does, how many rows it holds. -/
structure DBState where
  tableExists : Bool
  rows : Nat
  deriving Repr, DecidableEq

/-- Abstract handle for the `PGVectorStore` client (`self.vector_store`). -/
abbrev VSHandle := Unit

/-- A document node passed to `create_index_from_nodes` (only its identity
matters here). -/
abbrev Node := String

/-- The `VectorStoreIndex` handle built by `create_index_from_nodes`:
the node collection it was built over, and whether it was bound to the
manager's storage context. -/
structure IndexHandle where
  nodes : List Node
  boundToStore : Bool
  deriving Repr, DecidableEq

/-- The mutable attributes of a `PGVectorManager` instance. -/
structure PGMState where
  table_name : String
  embed_dim : Int
  vector_store : Option VSHandle
  storage_context : Bool
  index : Option IndexHandle
  conn : ConnState
  deriving Repr, DecidableEq

/-- SQL / store operations the manager actually attempts against the
database, recorded so that "no deletion was attempted" and "falls back to a
truncate" are observable. -/
inductive DbAction
  | deleteAll
  | truncate
  | existsCheck
  | countQuery
  deriving Repr, DecidableEq

/-- Outcome of `clear_data`: the database state afterwards, the operations
attempted, and the error log lines emitted.  `clear_data` itself always
returns normally (every exception is caught), hence no `Except`. -/
structure ClearResult where
  db : DBState
  actions : List DbAction
  errors : List String
  deriving Repr, DecidableEq

/-- Outcome of `get_document_count`: the returned count and the operations
attempted.  The function always returns (catch-all handlers), hence no
`Except`. -/
structure CountResult where
  count : Nat
  actions : List DbAction
  deriving Repr, DecidableEq

namespace PGVectorManager

/-- `PGVectorManager.clear_data` (source lines 178-193).

`deleteOk` is the outcome of `self.vector_store.delete(delete_all=True)`;
`truncateOk` the outcome of `TRUNCATE TABLE <table>` on the auxiliary
connection.  When `self.vector_store` is unset nothing is attempted; when the
bulk delete raises, the truncate fallback runs only if the auxiliary
connection exists and is not closed; a truncate failure is logged and
swallowed. -/
def clear_data (m : PGMState) (db : DBState) (deleteOk truncateOk : Bool) :
    ClearResult :=
  if m.vector_store.isSome then
    if deleteOk then
      { db := { db with rows := 0 }, actions := [.deleteAll], errors := [] }
    else
      if m.conn = .opened then
        if truncateOk then
          { db := { db with rows := 0 }, actions := [.deleteAll, .truncate],
            errors := ["clear data failed"] }
        else
          { db := db, actions := [.deleteAll, .truncate],
            errors := ["clear data failed", "truncate failed"] }
      else
        { db := db, actions := [.deleteAll], errors := ["clear data failed"] }
  else
    { db := db, actions := [], errors := [] }

/-- `PGVectorManager.get_document_count` (source lines 195-236).

`existsOk` is the outcome of the `information_schema.tables` existence
check, `countOk` the outcome of `SELECT COUNT(*)`.  Returns 0 when the
vector store is unset, when there is no usable auxiliary connection, when
the table does not exist, or when either query raises; returns the table's
row count otherwise. -/
def get_document_count (m : PGMState) (db : DBState)
    (existsOk countOk : Bool) : CountResult :=
  if m.vector_store.isNone then
    { count := 0, actions := [] }
  else if m.conn = .opened then
    if !existsOk then
      { count := 0, actions := [.existsCheck] }
    else if !db.tableExists then
      { count := 0, actions := [.existsCheck] }
    else if !countOk then
      { count := 0, actions := [.existsCheck, .countQuery] }
    else
      { count := db.rows, actions := [.existsCheck, .countQuery] }
  else
    { count := 0, actions := [] }

end PGVectorManager

/-- Outcomes of the external calls `PGVectorManager.initialize` makes:
`connOk` for `psycopg2.connect`, `extOk` for `CREATE EXTENSION IF NOT EXISTS
vector`, `fromParamsOk` for `PGVectorStore.from_params`, `tableCheckOk` for
the table-existence query, `tableExists` its answer, and `createTableOk` for
the manual `CREATE TABLE`. -/
structure InitEnv where
  connOk : Bool
  extOk : Bool
  fromParamsOk : Bool
  tableCheckOk : Bool
  tableExists : Bool
  createTableOk : Bool
  deriving Repr, DecidableEq

namespace PGVectorManager

/-- The embedding-dimension repair at the top of `initialize` (source lines
47-50): a non-positive dimension is replaced by 1536 with a logged warning.
(The `isinstance(self.embed_dim, int)` half of the test is vacuous in this
typed model, where the field is already an integer.)  Returns the repaired
dimension and whether the warning was logged. -/
def initRepairDim (d : Int) : Int × Bool :=
  if d ≤ 0 then (1536, true) else (d, false)

/-- `PGVectorManager.initialize` (source lines 44-138).

On success returns the updated manager state together with the warning log.
Failure of the auxiliary connection, of the extension creation, of the
table-existence check or of the manual table creation is caught and logged
(source lines 62-70, 100-129); failure of `PGVectorStore.from_params` is
re-raised (lines 94-96) and propagates through the outer handler (lines
136-138), so it surfaces as `.error`.  (The source also leaves `self.conn`
assigned on that failing path; no claim depends on the state after a failed
`initialize`, so the error carries only a message.) -/
def initStore (m : PGMState) (env : InitEnv) :
    Except String (PGMState × List String) :=
  let rd := initRepairDim m.embed_dim
  let dimLog : List String := if rd.2 then ["invalid embed dim, using 1536"] else []
  let conn : ConnState := if env.connOk then .opened else .absent
  let connLog : List String :=
    if env.connOk then
      if env.extOk then [] else ["create extension failed"]
    else ["aux connection failed"]
  if env.fromParamsOk then
    let tableLog : List String :=
      if conn = .opened then
        if env.tableCheckOk then
          if env.tableExists then []
          else if env.createTableOk then []
          else ["manual table creation failed"]
        else ["table existence check failed"]
      else []
    .ok ({ m with embed_dim := rd.1, conn := conn,
                  vector_store := some (), storage_context := true },
         dimLog ++ connLog ++ tableLog)
  else
    .error "from_params failed"

/-- `PGVectorManager.create_index_from_nodes` (source lines 140-172).

If the storage context is unset, `initialize` is invoked first (line 151-152)
and its failure propagates.  `buildOk` is the outcome of the
`VectorStoreIndex(nodes=..., storage_context=...)` constructor; on success
the built index is stored in `self.index` and returned, on failure the
exception is logged and re-raised (lines 170-172). -/
def create_index_from_nodes (m : PGMState) (nodes : List Node)
    (env : InitEnv) (buildOk : Bool) :
    Except String (PGMState × IndexHandle) :=
  match (if m.storage_context then Except.ok (m, ([] : List String))
         else initStore m env) with
  | .error e => .error e
  | .ok (m', _) =>
    if buildOk then
      let idx : IndexHandle := { nodes := nodes, boundToStore := m'.storage_context }
      .ok ({ m' with index := some idx }, idx)
    else
      .error "index build failed"

/-- `PGVectorManager.get_index` (source lines 174-176). -/
def get_index (m : PGMState) : Option IndexHandle := m.index

end PGVectorManager

/-! ## Embedding-dimension configuration (`src/app/utils/config.py`) -/

namespace Config

/-- Python's `str.lower()` for the characters occurring in configuration
values: ASCII upper-case letters are mapped to lower case. -/
def pyLower (s : String) : String :=
  String.mk (s.data.map (fun c =>
    if 'A' ≤ c ∧ c ≤ 'Z' then Char.ofNat (c.toNat + 32) else c))

/-- Python's `str.strip()`: removes leading and trailing whitespace. -/
def pyStrip (s : String) : String :=
  String.mk (((s.data.dropWhile Char.isWhitespace).reverse.dropWhile
    Char.isWhitespace).reverse)

/-- Python's `int(s)` on a string, for ordinary decimal literals: leading and
trailing whitespace is stripped, an optional single sign is allowed, and the
remainder must be one or more decimal digits; anything else raises
`ValueError`, modelled as `none`. -/
def pyInt (s : String) : Option Int :=
  match (pyStrip s).data with
  | [] => none
  | c :: cs =>
    let (sign, digits) :=
      if c = '-' then ((-1 : Int), cs)
      else if c = '+' then ((1 : Int), cs)
      else ((1 : Int), c :: cs)
    if digits = [] then none
    else if digits.all Char.isDigit then
      some (sign * Int.ofNat (digits.foldl (fun acc d => acc * 10 + (d.toNat - 48)) 0))
    else none

/-- The class-body computation of `Config.OPENAI_EMBEDDING_MODEL_DIM`
(source lines 42-55), from the raw environment value of
`OPENAI_EMBEDDING_MODEL_DIM` (`none` = variable unset).  Returns the
resulting dimension and whether a warning was printed.  An unset, literal
`"none"` (case-insensitive) or blank value silently defaults to 1536; a
non-numeric value defaults to 1536 with a printed warning; a parsed
non-positive value defaults to 1536 with a printed warning. -/
def configEmbedDim (env : Option String) : Int × Bool :=
  match env with
  | none => (1536, false)
  | some s =>
    if pyLower s = "none" || pyStrip s = "" then (1536, false)
    else
      match pyInt s with
      | none => (1536, true)
      | some n => if n ≤ 0 then (1536, true) else (n, false)

/-- The embedding dimension the vector store manager ends up using, and
whether a warning was emitted along the way: the config-module validation
(source `config.py` lines 42-55) composed with the repair in
`PGVectorManager.initialize` (source `pgvector_store.py` lines 47-50),
since the manager copies `Config.OPENAI_EMBEDDING_MODEL_DIM` into
`self.embed_dim` at construction and `initialize` re-validates it. -/
def managerEmbedDim (env : Option String) : Int × Bool :=
  let cfg := Config.configEmbedDim env
  let rd := PGVectorManager.initRepairDim cfg.1
  (rd.1, cfg.2 || rd.2)

end Config

/-! ## Shared concrete example states used by witnesses -/

/-- A fully initialized manager with an open auxiliary connection. -/
def sampleManager : PGMState :=
  { table_name := "pdf_documents", embed_dim := 1536, vector_store := some (),
    storage_context := true, index := none, conn := .opened }

/-- A manager on which `initialize` has never run. -/
def freshManager : PGMState :=
  { table_name := "pdf_documents", embed_dim := 1536, vector_store := none,
    storage_context := false, index := none, conn := .absent }

/-! ## Claims -/

/-- C1 — the claim is the intended contract the spec states (restoration of
the default filter slot on every exit path, including a `None` saved default
and a raising pipeline); the code violates it.  This theorem evaluates the
code at the failing inputs: with the default slot `None`, a successful query
with a per-call filter leaves the per-call filter installed (the restore
guard `original_filters is not None` fails); and with a non-`None` default
slot, a raising pipeline also leaves the per-call filter installed (no
restore on the exception path). -/
theorem query_leaves_per_call_filter_installed :
    ((RAGQueryEngine.query true true ⟨none⟩ "q" (some [("source", "a.pdf")])
        (fun _ _ => Except.ok ("ans", []))).1
      = ⟨some [("source", "a.pdf")]⟩)
    ∧ ((RAGQueryEngine.query true true ⟨some [("k", "v")]⟩ "q"
          (some [("source", "a.pdf")])
          (fun _ _ => Except.error "boom")).1
      = ⟨some [("source", "a.pdf")]⟩)
    ∧ (some [("source", "a.pdf")] : Option MFilter) ≠ none
    ∧ (some [("source", "a.pdf")] : Option MFilter) ≠ some [("k", "v")] := by
  refine ⟨rfl, rfl, by simp, by simp⟩

/-- C2 — for an engine whose pipeline was built with `similarity_top_k = 4`
and `similarity_cutoff = 0.7`, every citation of a successful query has
score ≥ 0.7 and there are at most 4 citations. -/
theorem query_citations_cutoff_topk (hasR hasF : Bool) (st : EngineState)
    (q : String) (filters : Option MFilter)
    (retrieve : String → Option MFilter → List ScoredNode)
    (synthesize : List ScoredNode → String) (r : QueryResult)
    (h : (RAGQueryEngine.query hasR hasF st q filters
            (RAGQueryEngine.mkPipeline 4 (7/10) retrieve synthesize)).2
          = Except.ok r) :
    (∀ c ∈ r.citations, (7 : ℚ)/10 ≤ c.score) ∧ r.citations.length ≤ 4 := by
  simp only [RAGQueryEngine.query, RAGQueryEngine.mkPipeline, Except.ok.injEq] at h
  subst h
  constructor
  · intro c hc
    simp only [List.mem_map, List.mem_filter, decide_eq_true_eq] at hc
    obtain ⟨n, ⟨-, hscore⟩, rfl⟩ := hc
    exact hscore
  · calc (List.map _ _).length
        = (List.filter _ _).length := List.length_map _ _
      _ ≤ (List.take 4 _).length := List.length_filter_le _ _
      _ ≤ 4 := by simp [List.length_take]

/-- Witness for C2 at a concrete retrieval returning scores 0.9 and 0.5:
only the 0.9 chunk survives. -/
theorem query_citations_cutoff_topk_witness :
    (∀ c ∈ (QueryResult.mk "ans" [⟨"a", 9/10, []⟩]).citations, (7 : ℚ)/10 ≤ c.score)
    ∧ (QueryResult.mk "ans" [⟨"a", 9/10, []⟩]).citations.length ≤ 4 :=
  query_citations_cutoff_topk true true ⟨none⟩ "q" none
    (fun _ _ => [⟨"a", 9/10, []⟩, ⟨"b", 1/2, []⟩]) (fun _ => "ans") _
    (by norm_num [RAGQueryEngine.query, RAGQueryEngine.mkPipeline,
                  RAGQueryEngine.activeFilters, List.filter, List.take])

/-- C6 — on a successful pipeline call, `query` returns
`{"response": <stringified answer>, "citations": <one record per surviving
source chunk>}`, each record holding the chunk's content, score and metadata,
in retrieval order. -/
theorem query_result_shape (hasR hasF : Bool) (st : EngineState) (q : String)
    (filters : Option MFilter)
    (pipeline : String → Option MFilter → Except String (String × List ScoredNode))
    (ans : String) (nodes : List ScoredNode)
    (hp : pipeline q (RAGQueryEngine.activeFilters hasR hasF st filters)
          = Except.ok (ans, nodes)) :
    ∃ st' cits,
      RAGQueryEngine.query hasR hasF st q filters pipeline
        = (st', Except.ok { response := ans, citations := cits })
      ∧ cits.length = nodes.length
      ∧ ∀ i : Nat, cits[i]? = (nodes[i]?).map
          (fun n => Citation.mk n.content n.score n.metadata) := by
  have h2 : (RAGQueryEngine.query hasR hasF st q filters pipeline).2
      = Except.ok
          { response := ans,
            citations := nodes.map (fun n => Citation.mk n.content n.score n.metadata) } := by
    simp only [RAGQueryEngine.query]
    rw [hp]
  exact ⟨(RAGQueryEngine.query hasR hasF st q filters pipeline).1,
         nodes.map (fun n => Citation.mk n.content n.score n.metadata),
         by rw [← h2], List.length_map _ _, fun i => List.getElem?_map _ _ _⟩

/-- Witness for C6 at a concrete pipeline returning one source chunk. -/
theorem query_result_shape_witness :
    ∃ st' cits,
      RAGQueryEngine.query true true ⟨none⟩ "q" none
          (fun _ _ => Except.ok ("ans", [⟨"x", 1/2, [("k", "v")]⟩]))
        = (st', Except.ok { response := "ans", citations := cits })
      ∧ cits.length = ([⟨"x", 1/2, [("k", "v")]⟩] : List ScoredNode).length
      ∧ ∀ i : Nat, cits[i]? = (([⟨"x", 1/2, [("k", "v")]⟩] : List ScoredNode)[i]?).map
          (fun n => Citation.mk n.content n.score n.metadata) :=
  query_result_shape true true ⟨none⟩ "q" none _ "ans" _ rfl

/-- C3 — `get_document_count` never raises (it is a total function by
construction, mirroring the catch-all handlers); it returns 0 when the table
does not exist, the exact row count when the table exists and both queries
succeed (over an open auxiliary connection), and 0 on any query failure. -/
theorem get_document_count_spec (m : PGMState) (db : DBState)
    (existsOk countOk : Bool) (hvs : m.vector_store.isSome = true) :
    (db.tableExists = false →
        (PGVectorManager.get_document_count m db existsOk countOk).count = 0)
    ∧ (m.conn = .opened → existsOk = true → countOk = true → db.tableExists = true →
        (PGVectorManager.get_document_count m db existsOk countOk).count = db.rows)
    ∧ ((existsOk = false ∨ countOk = false) →
        (PGVectorManager.get_document_count m db existsOk countOk).count = 0) := by
  obtain ⟨v, hv⟩ := Option.isSome_iff_exists.mp hvs
  unfold PGVectorManager.get_document_count
  rcases hc : m.conn <;> rcases existsOk <;> rcases countOk <;>
    rcases ht : db.tableExists <;> simp_all

/-- Witness for C3: an initialized manager with an open connection and an
existing 3-row table reports exactly 3. -/
theorem get_document_count_spec_witness :
    (PGVectorManager.get_document_count sampleManager ⟨true, 3⟩ true true).count = 3 :=
  (get_document_count_spec sampleManager ⟨true, 3⟩ true true rfl).2.1 rfl rfl rfl rfl

/-- C4 — `clear_data` empties the table via the store client's bulk delete;
if that raises it falls back to `TRUNCATE TABLE` over the (open) auxiliary
connection; a truncate failure is logged and `clear_data` still returns
normally (the function is total: no outcome is an exception). -/
theorem clear_data_spec (m : PGMState) (db : DBState) (deleteOk truncateOk : Bool)
    (hvs : m.vector_store.isSome = true) :
    (deleteOk = true →
        PGVectorManager.clear_data m db deleteOk truncateOk
          = { db := { db with rows := 0 }, actions := [.deleteAll], errors := [] })
    ∧ (deleteOk = false → m.conn = .opened →
        DbAction.truncate ∈ (PGVectorManager.clear_data m db deleteOk truncateOk).actions
        ∧ (truncateOk = true →
            (PGVectorManager.clear_data m db deleteOk truncateOk).db = { db with rows := 0 })
        ∧ (truncateOk = false →
            (PGVectorManager.clear_data m db deleteOk truncateOk).db = db
            ∧ "truncate failed" ∈ (PGVectorManager.clear_data m db deleteOk truncateOk).errors)) := by
  obtain ⟨v, hv⟩ := Option.isSome_iff_exists.mp hvs
  unfold PGVectorManager.clear_data
  rcases deleteOk <;> rcases truncateOk <;> rcases hc : m.conn <;> simp_all

/-- Witness for C4: bulk delete raises and the truncate also fails —
`clear_data` still yields a result, with the truncate attempted and its
failure logged. -/
theorem clear_data_spec_witness :
    DbAction.truncate ∈ (PGVectorManager.clear_data sampleManager ⟨true, 5⟩ false false).actions
    ∧ (false = true →
        (PGVectorManager.clear_data sampleManager ⟨true, 5⟩ false false).db
          = { (⟨true, 5⟩ : DBState) with rows := 0 })
    ∧ (false = false →
        (PGVectorManager.clear_data sampleManager ⟨true, 5⟩ false false).db = (⟨true, 5⟩ : DBState)
        ∧ "truncate failed" ∈ (PGVectorManager.clear_data sampleManager ⟨true, 5⟩ false false).errors) :=
  (clear_data_spec sampleManager ⟨true, 5⟩ false false rfl).2 rfl rfl

/-- C5 — on an initialized manager, `clear_data` followed by
`get_document_count` yields 0, whether the table was emptied by the primary
bulk-delete path or by the fallback truncate path. -/
theorem clear_then_count_zero (m : PGMState) (db : DBState)
    (deleteOk truncateOk existsOk countOk : Bool)
    (hvs : m.vector_store.isSome = true)
    (hsucc : deleteOk = true ∨ (m.conn = .opened ∧ truncateOk = true)) :
    (PGVectorManager.get_document_count m
        (PGVectorManager.clear_data m db deleteOk truncateOk).db
        existsOk countOk).count = 0 := by
  obtain ⟨v, hv⟩ := Option.isSome_iff_exists.mp hvs
  unfold PGVectorManager.clear_data PGVectorManager.get_document_count
  rcases deleteOk <;> rcases truncateOk <;> rcases existsOk <;> rcases countOk <;>
    rcases hc : m.conn <;> rcases ht : db.tableExists <;> simp_all

/-- Witness for C5 through the fallback truncate path, starting from a 5-row
table. -/
theorem clear_then_count_zero_witness :
    (PGVectorManager.get_document_count sampleManager
        (PGVectorManager.clear_data sampleManager ⟨true, 5⟩ false true).db
        true true).count = 0 :=
  clear_then_count_zero sampleManager ⟨true, 5⟩ false true true true rfl (Or.inr ⟨rfl, rfl⟩)

/-- C10 — when `initialize` has never run (the vector store handle is unset),
`clear_data` returns with the database untouched and no operation attempted,
and `get_document_count` returns 0 without issuing any query, even if the
table exists and holds rows; neither raises (both are total). -/
theorem uninitialized_manager_safe (m : PGMState) (db : DBState)
    (deleteOk truncateOk existsOk countOk : Bool)
    (h : m.vector_store = none) :
    PGVectorManager.clear_data m db deleteOk truncateOk
      = { db := db, actions := [], errors := [] }
    ∧ PGVectorManager.get_document_count m db existsOk countOk
      = { count := 0, actions := [] } := by
  unfold PGVectorManager.clear_data PGVectorManager.get_document_count
  simp [h]

/-- Witness for C10: a never-initialized manager over an existing 7-row
table. -/
theorem uninitialized_manager_safe_witness :
    PGVectorManager.clear_data freshManager ⟨true, 7⟩ true true
      = { db := ⟨true, 7⟩, actions := [], errors := [] }
    ∧ PGVectorManager.get_document_count freshManager ⟨true, 7⟩ true true
      = { count := 0, actions := [] } :=
  uninitialized_manager_safe freshManager ⟨true, 7⟩ true true true true rfl

/-- C7 counterexample — the claim requires a warning to be logged for a
*missing* embedding-dimension value as well, but when the environment
variable is unset the config module silently defaults to 1536 (no print) and
the manager's re-validation sees a valid positive 1536 (no log): the manager
ends up at 1536 with no warning anywhere. -/
theorem missing_embed_dim_warns_refuted :
    ¬ ((Config.managerEmbedDim none).1 = 1536
       ∧ (Config.managerEmbedDim none).2 = true) := by
  decide

/-- C7 amended — for a *non-numeric* or *non-positive* configured
embedding-dimension value the manager ends up using 1536 and a warning is
emitted; for a *missing* (or literal "none" / blank) value it ends up using
1536 silently; the validation never raises (the function is total) and the
resulting dimension is always positive. -/
theorem embed_dim_validation (env : Option String) :
    ((env = none ∨ ∃ s, env = some s
        ∧ (Config.pyLower s = "none" ∨ Config.pyStrip s = "")) →
        Config.managerEmbedDim env = (1536, false))
    ∧ (∀ s, env = some s → Config.pyLower s ≠ "none" → Config.pyStrip s ≠ "" →
        Config.pyInt s = none → Config.managerEmbedDim env = (1536, true))
    ∧ (∀ s n, env = some s → Config.pyLower s ≠ "none" → Config.pyStrip s ≠ "" →
        Config.pyInt s = some n → n ≤ 0 → Config.managerEmbedDim env = (1536, true))
    ∧ 0 < (Config.managerEmbedDim env).1 := by
  unfold Config.managerEmbedDim Config.configEmbedDim PGVectorManager.initRepairDim
  refine ⟨?_, ?_, ?_, ?_⟩
  · rintro (rfl | ⟨s, rfl, hs⟩)
    · simp
    · rcases hs with hs | hs <;> simp [hs]
  · rintro s rfl h1 h2 hp
    simp [h1, h2, hp]
  · rintro s n rfl h1 h2 hp hn
    have hn' : ¬ (0 : Int) < n := not_lt.mpr hn
    simp [h1, h2, hp, hn, hn']
  · rcases env with _ | s
    · simp
    · by_cases h1 : Config.pyLower s = "none"
      · simp [h1]
      · by_cases h2 : Config.pyStrip s = ""
        · simp [h1, h2]
        · rcases hp : Config.pyInt s with _ | n
          · simp [h1, h2, hp]
          · by_cases hn : n ≤ 0
            · simp [h1, h2, hp, hn]
            · have hpos : 0 < n := lt_of_not_le hn
              simp [h1, h2, hp, hn, hpos]

/-- Witness for C7 (amended) at the spec's two example inputs: the
non-numeric value "abc" and the non-positive value "-5". -/
theorem embed_dim_validation_witness :
    Config.managerEmbedDim (some "abc") = (1536, true)
    ∧ Config.managerEmbedDim (some "-5") = (1536, true) :=
  ⟨(embed_dim_validation (some "abc")).2.1 "abc" rfl (by decide) (by decide) (by decide),
   (embed_dim_validation (some "-5")).2.2.1 "-5" (-5) rfl (by decide) (by decide)
     (by decide) (by decide)⟩

/-- C8 — in `initialize`, a failing extension creation or failing manual
table creation is non-fatal (initialization still returns normally, with the
failure logged), while a failing `PGVectorStore.from_params` construction
propagates as an error. -/
theorem init_store_fatality (m : PGMState) (env : InitEnv) :
    (env.fromParamsOk = false →
        PGVectorManager.initStore m env = .error "from_params failed")
    ∧ (env.fromParamsOk = true → ∃ m' logs,
        PGVectorManager.initStore m env = .ok (m', logs)
        ∧ m'.vector_store = some () ∧ m'.storage_context = true
        ∧ (env.connOk = true → env.extOk = false →
            "create extension failed" ∈ logs)
        ∧ (env.connOk = true → env.tableCheckOk = true → env.tableExists = false →
            env.createTableOk = false → "manual table creation failed" ∈ logs)) := by
  unfold PGVectorManager.initStore
  constructor
  · intro hf
    simp [hf]
  · intro ht
    simp only [ht, reduceIte]
    refine ⟨_, _, rfl, rfl, rfl, ?_, ?_⟩
    · intro hco hex
      simp [hco, hex]
    · intro hco hchk hexists hcreate
      simp [hco, hchk, hexists, hcreate]

/-- Witness for C8 in which the extension creation and manual table creation
both fail but `from_params` succeeds: initialization returns normally with
both failures logged. -/
theorem init_store_fatality_witness :
    ∃ m' logs,
      PGVectorManager.initStore freshManager ⟨true, false, true, true, false, false⟩
        = .ok (m', logs)
      ∧ m'.vector_store = some () ∧ m'.storage_context = true
      ∧ (true = true → false = false → "create extension failed" ∈ logs)
      ∧ (true = true → true = true → false = false → false = false →
          "manual table creation failed" ∈ logs) :=
  (init_store_fatality freshManager ⟨true, false, true, true, false, false⟩).2 rfl

/-- C9 — `create_index_from_nodes` auto-invokes initialization when the
storage context is unset (so it fails exactly when store construction fails,
and otherwise runs against a freshly initialized store), builds an index over
the supplied nodes bound to the store and records it; `get_index` returns the
last recorded handle, or none when no index has been built. -/
theorem create_index_spec (m : PGMState) (nodes : List Node) (env : InitEnv)
    (buildOk : Bool) :
    (∀ m' idx, PGVectorManager.create_index_from_nodes m nodes env buildOk
        = .ok (m', idx) →
        idx.nodes = nodes ∧ idx.boundToStore = true
        ∧ PGVectorManager.get_index m' = some idx)
    ∧ (m.storage_context = false → env.fromParamsOk = false →
        PGVectorManager.create_index_from_nodes m nodes env buildOk
          = .error "from_params failed")
    ∧ (m.storage_context = false → env.fromParamsOk = true → buildOk = true →
        ∃ m' idx, PGVectorManager.create_index_from_nodes m nodes env buildOk
          = .ok (m', idx)
          ∧ m'.storage_context = true ∧ m'.vector_store = some ()
          ∧ m'.conn = (if env.connOk then ConnState.opened else ConnState.absent))
    ∧ (m.index = none → PGVectorManager.get_index m = none) := by
  refine ⟨?_, ?_, ?_, fun h => h⟩
  · intro m' idx h
    unfold PGVectorManager.create_index_from_nodes at h
    rcases hs : m.storage_context <;> rcases hb : buildOk <;>
      rcases hf : env.fromParamsOk <;>
      simp_all [PGVectorManager.initStore, PGVectorManager.get_index] <;>
      obtain ⟨rfl, rfl⟩ := h <;> simp_all
  · intro hs hf
    unfold PGVectorManager.create_index_from_nodes
    simp [hs, PGVectorManager.initStore, hf]
  · intro hs hf hb
    unfold PGVectorManager.create_index_from_nodes
    simp [hs, hb, PGVectorManager.initStore, hf]

/-- Witness for C9: a fresh manager (no storage context yet) with a
successful environment; the index is built over two nodes. -/
theorem create_index_spec_witness :
    ∃ m' idx,
      PGVectorManager.create_index_from_nodes freshManager ["n1", "n2"]
          ⟨true, true, true, true, true, true⟩ true
        = .ok (m', idx)
      ∧ m'.storage_context = true ∧ m'.vector_store = some ()
      ∧ m'.conn = (if true then ConnState.opened else ConnState.absent) :=
  (create_index_spec freshManager ["n1", "n2"] ⟨true, true, true, true, true, true⟩
    true).2.2.1 rfl rfl rfl

end PdfChat
